import Mathlib

/-!
Verification of the user/posts CRUD backend: data-access layer
(`src/backend/src/db`) and HTTP surface (the `users` and `posts` Express
routers), shallowly embedded over an explicit relational store.

Conventions of the embedding:
* The relational store is a `Store`: a list of user rows and a list of post
  rows, in storage order.
* JavaScript request values are modelled by `JsVal` (a string, or some other
  value carrying only its truthiness), query parameters by `Option String`
  and, for the numeric pagination parameters, by `QNum` (absent, non-numeric,
  or a number).  Fractional JS numbers play no role in any property below, so
  numbers are carried as `Int`.
* A repository call that can suffer a storage fault is a value of
  `Except StorageFault α`; the pure `...Rows` functions give the fault-free
  row-level semantics.  Handlers that wrap their body in try/catch return
  `Resp`; handlers without a catch return `Except StorageFault Resp`, where
  `Except.error` is a rejection that escapes the route handler without any
  response having been sent.
-/

/-- A user row as persisted: the four address columns are nullable. -/
structure UserRow where
  id : String
  name : String
  username : String
  email : String
  phone : String
  street : Option String
  city : Option String
  state : Option String
  zipcode : Option String
deriving DecidableEq, Repr

/-- A user as returned by the repository after address normalization:
all four address fields are plain strings, never null. -/
structure UserOut where
  id : String
  name : String
  username : String
  email : String
  phone : String
  street : String
  city : String
  state : String
  zipcode : String
deriving DecidableEq, Repr

/-- A post row; `id` and `created_at` are generated at creation time. -/
structure Post where
  id : String
  user_id : String
  title : String
  body : String
  created_at : String
deriving DecidableEq, Repr

/-- The relational store reached through the single connection. -/
structure Store where
  users : List UserRow
  posts : List Post
deriving DecidableEq, Repr

/-- A storage-level fault (connection/query failure); `detail` is the
engine's message, which repositories log or wrap but never return raw. -/
structure StorageFault where
  detail : String
deriving DecidableEq, Repr

/-- A JavaScript value as far as the validation code can observe it: a
string, or a non-string value of which only the truthiness matters. -/
inductive JsVal where
  | str : String → JsVal
  | other : Bool → JsVal
deriving DecidableEq, Repr

/-- JS truthiness of a possibly-absent value: `undefined` is falsy, a string
is truthy iff non-empty, other values carry their truthiness. -/
def jsTruthy : Option JsVal → Bool
  | none => false
  | some (JsVal.str s) => !(s == "")
  | some (JsVal.other t) => t

/-- `typeof v === \x27string\x27` on a possibly-absent value. -/
def jsIsString : Option JsVal → Bool
  | some (JsVal.str _) => true
  | _ => false

/-- The string payload of a value known to be a string (defaults to ""). -/
def jsStringVal : Option JsVal → String
  | some (JsVal.str s) => s
  | _ => ""

/-- JS truthiness of an optional string query parameter. -/
def strTruthy : Option String → Bool
  | none => false
  | some s => !(s == "")

/-- Drop leading whitespace characters from a character list. -/
def dropLeadingWs : List Char → List Char
  | [] => []
  | c :: cs => if c.isWhitespace then dropLeadingWs cs else c :: cs

/-- JavaScript `String.prototype.trim`, restricted to the ASCII whitespace
relevant here, as a structurally recursive function (Lean core's
`String.trim` is extensionally the same but is defined by well-founded
recursion on substrings, which blocks kernel evaluation). -/
def jsTrim (s : String) : String :=
  String.mk (dropLeadingWs (dropLeadingWs s.data.reverse).reverse)

/-- `Number(queryParam)` as the users router observes it: absent,
non-numeric (NaN), or a numeric value. -/
inductive QNum where
  | absent
  | nan
  | num : Int → QNum
deriving DecidableEq, Repr

/-- `Number(q) || d` from the users router: absent and NaN are falsy, and so
is the number 0, all falling back to the default `d`. -/
def numOr (q : QNum) (d : Int) : Int :=
  match q with
  | QNum.absent => d
  | QNum.nan => d
  | QNum.num n => if n == 0 then d else n

/-- JSON bodies the surface can send. -/
inductive RespBody where
  | errJson : String → RespBody
  | msgJson : String → RespBody
  | usersJson : List UserOut → RespBody
  | postsJson : List Post → RespBody
  | postJson : Post → RespBody
  | countJson : Nat → RespBody
  | emptyBody : RespBody
deriving DecidableEq, Repr

/-- An HTTP response: status code and JSON body. -/
structure Resp where
  status : Nat
  body : RespBody
deriving DecidableEq, Repr

/-! ## Repository layer (`src/backend/src/db`) -/

/-- Modelled from the spec: the SQL text of `selectPostsTemplate` is not under
`src` (only its use in `getPosts`); per the spec, `listPostsForUser` returns
all posts whose `user_id` equals the given id, in storage order. -/
def getPostsRows (s : Store) (userId : String) : List Post :=
  s.posts.filter (fun p => p.user_id == userId)

/-- `userExists` from `users.ts`: `SELECT COUNT(*) as count FROM users WHERE
id = ?`, resolving `count > 0`. -/
def userExistsRow (s : Store) (userId : String) : Bool :=
  (s.users.filter (fun u => u.id == userId)).length > 0

/-- Modelled from the spec: `selectCountOfUsersTemplate` is not under `src`;
per the spec, `countUsers` returns the total number of user rows. -/
def getUsersCountRows (s : Store) : Nat :=
  s.users.length

/-- `formatAddress` from `users.ts`: each address field is trimmed when
truthy (non-null and non-empty) and replaced by "" otherwise.  The TS
return type is the same `User` shape; here the result type records that the
address fields are now plain strings. -/
def formatAddress (u : UserRow) : UserOut :=
  { id := u.id, name := u.name, username := u.username, email := u.email,
    phone := u.phone,
    street := match u.street with
      | some s => if s == "" then "" else jsTrim s
      | none => ""
    city := match u.city with
      | some s => if s == "" then "" else jsTrim s
      | none => ""
    state := match u.state with
      | some s => if s == "" then "" else jsTrim s
      | none => ""
    zipcode := match u.zipcode with
      | some s => if s == "" then "" else jsTrim s
      | none => "" }

/-- `getUsers` from `users.ts`; the SQL text of `selectUsersTemplate` is
modelled from the spec (OFFSET `pageNumber * pageSize`, LIMIT `pageSize`, in
storage order — the source binds the parameters `[pageNumber * pageSize,
pageSize]` and its doc comment names the OFFSET and LIMIT clauses).  Each
returned row is passed through `formatAddress`. -/
def getUsersRows (s : Store) (pageNumber pageSize : Int) : List UserOut :=
  (((s.users.drop (pageNumber * pageSize).toNat).take pageSize.toNat).map formatAddress)

/-- Modelled from the spec: `deletePostTemplate` is not under `src`; per the
spec it deletes the row with the given `id` if present.  Returns the new
store and the source's resolved value `this.changes > 0`. -/
def deletePostRows (s : Store) (postId : String) : Store × Bool :=
  let kept := s.posts.filter (fun p => !(p.id == postId))
  ({ s with posts := kept }, kept.length < s.posts.length)

/-- `deletePost` from `posts.ts` as the promise the router awaits: when the
engine reports an error the promise rejects with the generic message
"Failed to delete post from database" (the engine detail is only logged);
otherwise it resolves `this.changes > 0` next to the updated store. -/
def deletePostCall (engineFault : Option String) (s : Store) (postId : String) :
    Except StorageFault (Store × Bool) :=
  match engineFault with
  | some _ => Except.error { detail := "Failed to delete post from database" }
  | none => Except.ok (deletePostRows s postId)

/-- `createPost` from `posts.ts`, fault-free path: the generated UUID and
ISO timestamp are passed in as `newId` and `createdAt`; the row is inserted
and the fully populated post is resolved. -/
def createPostRows (s : Store) (userId title body newId createdAt : String) :
    Store × Post :=
  let p : Post := { id := newId, user_id := userId, title := title,
                    body := body, created_at := createdAt }
  ({ s with posts := s.posts ++ [p] }, p)

/-! ## Fault-free repository instantiations handed to the handlers -/

def okGetUsersDb (s : Store) : Int → Int → Except StorageFault (List UserOut) :=
  fun pn ps => Except.ok (getUsersRows s pn ps)

def okGetPostsDb (s : Store) : String → Except StorageFault (List Post) :=
  fun u => Except.ok (getPostsRows s u)

def okUserExistsDb (s : Store) : String → Except StorageFault Bool :=
  fun u => Except.ok (userExistsRow s u)

def okCreatePostDb (s : Store) (newId createdAt : String) :
    String → String → String → Except StorageFault Post :=
  fun u t b => Except.ok (createPostRows s u t b newId createdAt).2

def okDeletePostDb (s : Store) : String → Except StorageFault Bool :=
  fun pid => Except.ok (deletePostRows s pid).2

/-! ## HTTP surface -/

/-- `GET /users` from `routes/users.ts`: `Number(q) || default` for both
pagination parameters, a 400 `message` body when `pageNumber < 0 || pageSize
< 1`, otherwise the awaited `getUsers` result is sent with status 200.  The
handler has no try/catch, so a rejected repository promise escapes it
(`Except.error`) without a response. -/
def usersIndexHandler (getUsersDb : Int → Int → Except StorageFault (List UserOut))
    (pageNumberQ pageSizeQ : QNum) : Except StorageFault Resp :=
  let pageNumber := numOr pageNumberQ 0
  let pageSize := numOr pageSizeQ 4
  if pageNumber < 0 || pageSize < 1 then
    Except.ok { status := 400, body := RespBody.msgJson "Invalid page number or page size" }
  else
    match getUsersDb pageNumber pageSize with
    | Except.error e => Except.error e
    | Except.ok us => Except.ok { status := 200, body := RespBody.usersJson us }

/-- `GET /users/count` from `routes/users.ts`: sends the awaited count with
status 200; no try/catch, so a rejection escapes the handler. -/
def usersCountHandler (getUsersCountDb : Except StorageFault Nat) :
    Except StorageFault Resp :=
  match getUsersCountDb with
  | Except.error e => Except.error e
  | Except.ok c => Except.ok { status := 200, body := RespBody.countJson c }

/-- `GET /posts` from the posts router: 400 when `req.query.userId` is falsy
(absent or empty), else the awaited `getPosts` result is sent with status
200; no try/catch, so a rejection escapes the handler. -/
def postsIndexHandler (getPostsDb : String → Except StorageFault (List Post))
    (userIdQ : Option String) : Except StorageFault Resp :=
  if !(strTruthy userIdQ) then
    Except.ok { status := 400, body := RespBody.errJson "userId is required" }
  else
    match getPostsDb (userIdQ.getD "") with
    | Except.error e => Except.error e
    | Except.ok ps => Except.ok { status := 200, body := RespBody.postsJson ps }

/-- `POST /posts` from the posts router: the in-order, short-circuiting
validation pipeline, the `userExists` precondition, then `createPost`; the
whole body is inside try/catch, so any rejected repository promise yields a
500 with the generic message. -/
def postsCreateHandler (userExistsDb : String → Except StorageFault Bool)
    (createPostDb : String → String → String → Except StorageFault Post)
    (title bodyV userId : Option JsVal) : Resp :=
  if !(jsTruthy title) || !(jsIsString title) then
    { status := 400, body := RespBody.errJson "Title is required and must be a string" }
  else if !(jsTruthy bodyV) || !(jsIsString bodyV) then
    { status := 400, body := RespBody.errJson "Body is required and must be a string" }
  else if !(jsTruthy userId) || !(jsIsString userId) then
    { status := 400, body := RespBody.errJson "User ID is required and must be a string" }
  else
    let trimmedTitle := jsTrim (jsStringVal title)
    let trimmedBody := jsTrim (jsStringVal bodyV)
    let trimmedUserId := jsTrim (jsStringVal userId)
    if trimmedTitle.length == 0 then
      { status := 400, body := RespBody.errJson "Title cannot be empty or contain only whitespace" }
    else if trimmedBody.length == 0 then
      { status := 400, body := RespBody.errJson "Body cannot be empty or contain only whitespace" }
    else if trimmedUserId.length == 0 then
      { status := 400, body := RespBody.errJson "User ID cannot be empty or contain only whitespace" }
    else
      match userExistsDb trimmedUserId with
      | Except.error _ => { status := 500, body := RespBody.errJson "Internal server error" }
      | Except.ok false => { status := 404, body := RespBody.errJson "User not found" }
      | Except.ok true =>
        match createPostDb trimmedUserId trimmedTitle trimmedBody with
        | Except.error _ => { status := 500, body := RespBody.errJson "Internal server error" }
        | Except.ok p => { status := 201, body := RespBody.postJson p }

/-- `DELETE /posts/:id` from the posts router: 400 when the id is falsy or
trims to empty, else `deletePost(trimmedId)` decides 404 versus 204; the
body is inside try/catch, so a rejection yields a 500. -/
def postsDeleteHandler (deletePostDb : String → Except StorageFault Bool)
    (id : String) : Resp :=
  if id == "" || (jsTrim id).length == 0 then
    { status := 400, body := RespBody.errJson "Post ID is required" }
  else
    match deletePostDb (jsTrim id) with
    | Except.error _ => { status := 500, body := RespBody.errJson "Internal server error" }
    | Except.ok false => { status := 404, body := RespBody.errJson "Post not found" }
    | Except.ok true => { status := 204, body := RespBody.emptyBody }

/-! ## Claim-level specification functions

These follow the wording of the specification claims (not the source) and
are compared against the handlers above. -/

/-- The `POST /posts` pipeline exactly as claim C1 words it: each of the
first three checks fires only when the field is absent or not a string, so a
present empty string passes them and is expected to reach the trimmed-empty
checks. -/
def postsCreateClaimSpec (userExistsDb : String → Except StorageFault Bool)
    (createPostDb : String → String → String → Except StorageFault Post)
    (title bodyV userId : Option JsVal) : Resp :=
  if title.isNone || !(jsIsString title) then
    { status := 400, body := RespBody.errJson "Title is required and must be a string" }
  else if bodyV.isNone || !(jsIsString bodyV) then
    { status := 400, body := RespBody.errJson "Body is required and must be a string" }
  else if userId.isNone || !(jsIsString userId) then
    { status := 400, body := RespBody.errJson "User ID is required and must be a string" }
  else
    let trimmedTitle := jsTrim (jsStringVal title)
    let trimmedBody := jsTrim (jsStringVal bodyV)
    let trimmedUserId := jsTrim (jsStringVal userId)
    if trimmedTitle.length == 0 then
      { status := 400, body := RespBody.errJson "Title cannot be empty or contain only whitespace" }
    else if trimmedBody.length == 0 then
      { status := 400, body := RespBody.errJson "Body cannot be empty or contain only whitespace" }
    else if trimmedUserId.length == 0 then
      { status := 400, body := RespBody.errJson "User ID cannot be empty or contain only whitespace" }
    else
      match userExistsDb trimmedUserId with
      | Except.error _ => { status := 500, body := RespBody.errJson "Internal server error" }
      | Except.ok false => { status := 404, body := RespBody.errJson "User not found" }
      | Except.ok true =>
        match createPostDb trimmedUserId trimmedTitle trimmedBody with
        | Except.error _ => { status := 500, body := RespBody.errJson "Internal server error" }
        | Except.ok p => { status := 201, body := RespBody.postJson p }

/-- One required-string field of the amended C1 pipeline: the check passes
exactly when the field holds a non-empty string; absent, non-string and
empty-string values all fail it (JS falsiness). -/
def requiredStringField : Option JsVal → Option String
  | some (JsVal.str s) => if s = "" then none else some s
  | _ => none

/-- The `POST /posts` pipeline as amended: the required-string checks also
reject the empty string, so the trimmed-emptiness checks only ever fire for
whitespace-only (but non-empty) strings; the rest of the pipeline is as the
claim words it. -/
def postsCreateAmendedSpec (userExistsDb : String → Except StorageFault Bool)
    (createPostDb : String → String → String → Except StorageFault Post)
    (title bodyV userId : Option JsVal) : Resp :=
  match requiredStringField title with
  | none => { status := 400, body := RespBody.errJson "Title is required and must be a string" }
  | some t =>
    match requiredStringField bodyV with
    | none => { status := 400, body := RespBody.errJson "Body is required and must be a string" }
    | some b =>
      match requiredStringField userId with
      | none => { status := 400, body := RespBody.errJson "User ID is required and must be a string" }
      | some u =>
        if jsTrim t = "" then
          { status := 400, body := RespBody.errJson "Title cannot be empty or contain only whitespace" }
        else if jsTrim b = "" then
          { status := 400, body := RespBody.errJson "Body cannot be empty or contain only whitespace" }
        else if jsTrim u = "" then
          { status := 400, body := RespBody.errJson "User ID cannot be empty or contain only whitespace" }
        else
          match userExistsDb (jsTrim u) with
          | Except.error _ => { status := 500, body := RespBody.errJson "Internal server error" }
          | Except.ok false => { status := 404, body := RespBody.errJson "User not found" }
          | Except.ok true =>
            match createPostDb (jsTrim u) (jsTrim t) (jsTrim b) with
            | Except.error _ => { status := 500, body := RespBody.errJson "Internal server error" }
            | Except.ok p => { status := 201, body := RespBody.postJson p }

/-- `GET /users` exactly as claim C2 words it: only absent or non-numeric
parameters fall back to the defaults, and any pageSize below 1 (including
0) is rejected with a 400. -/
def usersIndexClaimSpec (getUsersDb : Int → Int → Except StorageFault (List UserOut))
    (pageNumberQ pageSizeQ : QNum) : Except StorageFault Resp :=
  let pageNumber := match pageNumberQ with | QNum.num n => n | _ => 0
  let pageSize := match pageSizeQ with | QNum.num n => n | _ => 4
  if pageNumber < 0 || pageSize < 1 then
    Except.ok { status := 400, body := RespBody.msgJson "Invalid page number or page size" }
  else
    match getUsersDb pageNumber pageSize with
    | Except.error e => Except.error e
    | Except.ok us => Except.ok { status := 200, body := RespBody.usersJson us }

/-- `GET /users` as amended: a parameter also falls back to its default when
it parses to the number 0 (JS falsiness), so pageSize 0 is served with the
default page size 4 rather than rejected; 400 exactly when the effective
pageNumber is negative or the effective pageSize is below 1. -/
def usersIndexAmendedSpec (getUsersDb : Int → Int → Except StorageFault (List UserOut))
    (pageNumberQ pageSizeQ : QNum) : Except StorageFault Resp :=
  let pageNumber := match pageNumberQ with | QNum.num n => if n = 0 then 0 else n | _ => 0
  let pageSize := match pageSizeQ with | QNum.num n => if n = 0 then 4 else n | _ => 4
  if pageNumber < 0 || pageSize < 1 then
    Except.ok { status := 400, body := RespBody.msgJson "Invalid page number or page size" }
  else
    match getUsersDb pageNumber pageSize with
    | Except.error e => Except.error e
    | Except.ok us => Except.ok { status := 200, body := RespBody.usersJson us }

/-- `GET /posts` exactly as claim C7 words it: 400 only when the userId
query parameter is absent; any present value (including the empty string)
is looked up. -/
def postsIndexClaimSpec (getPostsDb : String → Except StorageFault (List Post))
    (userIdQ : Option String) : Except StorageFault Resp :=
  match userIdQ with
  | none => Except.ok { status := 400, body := RespBody.errJson "userId is required" }
  | some u =>
    match getPostsDb u with
    | Except.error e => Except.error e
    | Except.ok ps => Except.ok { status := 200, body := RespBody.postsJson ps }

/-- `GET /posts` as amended: 400 when the userId query parameter is absent
or the empty string; any other value is looked up and served with 200. -/
def postsIndexAmendedSpec (getPostsDb : String → Except StorageFault (List Post))
    (userIdQ : Option String) : Except StorageFault Resp :=
  match userIdQ with
  | none => Except.ok { status := 400, body := RespBody.errJson "userId is required" }
  | some u =>
    if u = "" then Except.ok { status := 400, body := RespBody.errJson "userId is required" }
    else
      match getPostsDb u with
      | Except.error e => Except.error e
      | Except.ok ps => Except.ok { status := 200, body := RespBody.postsJson ps }

/-! ## Concrete fixtures for witnesses and counterexamples -/

/-- A seed user row with a null street, whitespace-padded city, empty-string
state and clean zipcode, exercising every `formatAddress` branch. -/
def rowAlice : UserRow :=
  { id := "u1", name := "Alice Doe", username := "alice", email := "alice@example.com",
    phone := "555-0100", street := none, city := some " Springfield ",
    state := some "", zipcode := some "62704" }

/-- A second seed user row. -/
def rowBob : UserRow :=
  { id := "u2", name := "Bob Roe", username := "bob", email := "bob@example.com",
    phone := "555-0101", street := some "12 Main St", city := some "Shelby",
    state := some "IL", zipcode := some "60001" }

/-- A seed post owned by `rowAlice`. -/
def postP1 : Post :=
  { id := "p1", user_id := "u1", title := "Hello", body := "World",
    created_at := "2025-01-01T00:00:00.000Z" }

/-- A small concrete store: two users, one post. -/
def storeOne : Store :=
  { users := [rowAlice, rowBob], posts := [postP1] }

/-! ## Shared lemmas -/

theorem string_length_eq_zero (s : String) : s.length = 0 ↔ s = "" := by
  cases s with
  | mk data =>
    simp [String.length, String.ext_iff, List.length_eq_zero]

theorem jsTrim_empty : jsTrim "" = "" := rfl

/-! ## Claim theorems -/

/-- C3: for every `DELETE /posts/:id` request, an id that trims to empty
yields 400 "Post ID is required"; otherwise `deletePost` is called on the
trimmed id and its boolean decides between 404 "Post not found" and an
empty 204. -/
theorem deleteEndpoint_spec (db : String → Except StorageFault Bool) (id : String) :
    (jsTrim id = "" →
      postsDeleteHandler db id = { status := 400, body := RespBody.errJson "Post ID is required" }) ∧
    (jsTrim id ≠ "" →
      (db (jsTrim id) = Except.ok false →
        postsDeleteHandler db id = { status := 404, body := RespBody.errJson "Post not found" }) ∧
      (db (jsTrim id) = Except.ok true →
        postsDeleteHandler db id = { status := 204, body := RespBody.emptyBody })) := by
  constructor
  · intro h
    simp [postsDeleteHandler, h, string_length_eq_zero]
  · intro h
    have hid : ¬(id = "") := by
      intro he
      exact h (by rw [he]; rfl)
    constructor <;> intro hdb <;>
      simp [postsDeleteHandler, hid, hdb, string_length_eq_zero, h]

/-- C3 witness: a whitespace-only id gets the 400. -/
theorem deleteEndpoint_spec_witness :
    postsDeleteHandler (okDeletePostDb storeOne) "   "
      = { status := 400, body := RespBody.errJson "Post ID is required" } :=
  (deleteEndpoint_spec (okDeletePostDb storeOne) "   ").1 (by decide)

/-- C4: `deletePost` resolves (never rejects) in the absence of an engine
fault, its boolean is true exactly when some stored row carried the given
id — equivalently, exactly when at least one row was removed — and a
rejection happens exactly on an engine fault, with the generic message. -/
theorem deletePost_spec (s : Store) (pid : String) :
    deletePostCall none s pid = Except.ok (deletePostRows s pid) ∧
    ((deletePostRows s pid).2 = true ↔ ∃ p, p ∈ s.posts ∧ p.id = pid) ∧
    ((deletePostRows s pid).2 = true ↔ (deletePostRows s pid).1.posts.length < s.posts.length) ∧
    (∀ d, deletePostCall (some d) s pid
      = Except.error { detail := "Failed to delete post from database" }) := by
  refine ⟨rfl, ?_, ?_, fun d => rfl⟩
  · simp [deletePostRows, List.length_filter_lt_length_iff_exists]
  · simp [deletePostRows]

/-- C4 witness: deleting the one stored post reports true. -/
theorem deletePost_spec_witness :
    (deletePostRows storeOne "p1").2 = true :=
  (deletePost_spec storeOne "p1").2.1.mpr ⟨postP1, by decide, rfl⟩

/-- C10: a delete leaves the users table untouched and affects no post row
other than those carrying the deleted id (the surviving posts are a
sublist of the old ones, every differently-keyed post survives, and every
survivor was already present with a different id); a create also leaves
the users table untouched.  These are the only two store-mutating
operations of the system. -/
theorem delete_frame_spec (s : Store) (pid : String) :
    (deletePostRows s pid).1.users = s.users ∧
    List.Sublist (deletePostRows s pid).1.posts s.posts ∧
    (∀ p, p ∈ s.posts → p.id ≠ pid → p ∈ (deletePostRows s pid).1.posts) ∧
    (∀ p, p ∈ (deletePostRows s pid).1.posts → p ∈ s.posts ∧ p.id ≠ pid) ∧
    (∀ uid t b nid ts, (createPostRows s uid t b nid ts).1.users = s.users) := by
  refine ⟨rfl, List.filter_sublist s.posts, ?_, ?_, fun uid t b nid ts => rfl⟩
  · intro p hp hne
    simp [deletePostRows, List.mem_filter, hp, hne]
  · intro p hp
    simp only [deletePostRows, List.mem_filter, Bool.not_eq_true', beq_eq_false_iff_ne] at hp
    exact ⟨hp.1, hp.2⟩

/-- C10 witness: deleting an unknown id keeps the stored post. -/
theorem delete_frame_spec_witness :
    postP1 ∈ (deletePostRows storeOne "p2").1.posts :=
  (delete_frame_spec storeOne "p2").2.2.1 postP1 (by decide) (by decide)

/-- C5: every user returned by `listUsers` arises from a stored row, with
each of the four address fields equal to "" when the stored column is null
and to the trimmed stored value when it is not (so every returned address
field is a plain string, never null — which `UserOut` records by type). -/
theorem listUsers_address_normalized (s : Store) (pn ps : Int) (u : UserOut)
    (hu : u ∈ getUsersRows s pn ps) :
    ∃ row, row ∈ s.users ∧
      (row.street = none → u.street = "") ∧ (∀ v, row.street = some v → u.street = jsTrim v) ∧
      (row.city = none → u.city = "") ∧ (∀ v, row.city = some v → u.city = jsTrim v) ∧
      (row.state = none → u.state = "") ∧ (∀ v, row.state = some v → u.state = jsTrim v) ∧
      (row.zipcode = none → u.zipcode = "") ∧ (∀ v, row.zipcode = some v → u.zipcode = jsTrim v) := by
  simp only [getUsersRows, List.mem_map] at hu
  obtain ⟨row, hrow, hform⟩ := hu
  refine ⟨row, List.mem_of_mem_drop (List.mem_of_mem_take hrow), ?_⟩
  subst hform
  refine ⟨?_, ?_, ?_, ?_, ?_, ?_, ?_, ?_⟩ <;>
    first
      | (intro h; simp [formatAddress, h])
      | (intro v h
         simp only [formatAddress, h]
         by_cases hv : v = "" <;> simp [hv, jsTrim_empty])

/-- C5 witness: the returned copy of `rowAlice` has its null street as "",
its padded city trimmed, and so on. -/
theorem listUsers_address_normalized_witness :
    ∃ row, row ∈ storeOne.users ∧
      (row.street = none → (formatAddress rowAlice).street = "") ∧
      (∀ v, row.street = some v → (formatAddress rowAlice).street = jsTrim v) ∧
      (row.city = none → (formatAddress rowAlice).city = "") ∧
      (∀ v, row.city = some v → (formatAddress rowAlice).city = jsTrim v) ∧
      (row.state = none → (formatAddress rowAlice).state = "") ∧
      (∀ v, row.state = some v → (formatAddress rowAlice).state = jsTrim v) ∧
      (row.zipcode = none → (formatAddress rowAlice).zipcode = "") ∧
      (∀ v, row.zipcode = some v → (formatAddress rowAlice).zipcode = jsTrim v) :=
  listUsers_address_normalized storeOne 0 4 (formatAddress rowAlice) (by decide)

/-- C6: for a non-negative pageNumber and positive pageSize, `listUsers`
returns at most pageSize users, and no more than the total user count minus
the offset `pageNumber * pageSize` whenever that difference is positive. -/
theorem listUsers_page_bounds (s : Store) (pn ps : Int) (hpn : 0 ≤ pn) (hps : 1 ≤ ps) :
    (getUsersRows s pn ps).length ≤ ps.toNat ∧
    ((0 : Int) < (getUsersCountRows s : Int) - pn * ps →
      ((getUsersRows s pn ps).length : Int) ≤ (getUsersCountRows s : Int) - pn * ps) := by
  have hlen : (getUsersRows s pn ps).length
      = min ps.toNat (s.users.length - (pn * ps).toNat) := by
    simp [getUsersRows]
  have hmul : 0 ≤ pn * ps := mul_nonneg hpn (by omega)
  have htn : ((pn * ps).toNat : Int) = pn * ps := Int.toNat_of_nonneg hmul
  constructor
  · rw [hlen]
    exact Nat.min_le_left _ _
  · intro hpos
    rw [hlen]
    simp only [getUsersCountRows] at hpos ⊢
    omega

/-- C6 witness: page 0 of size 4 over the two seed users. -/
theorem listUsers_page_bounds_witness :
    (getUsersRows storeOne 0 4).length ≤ (4 : Int).toNat ∧
    ((0 : Int) < (getUsersCountRows storeOne : Int) - 0 * 4 →
      ((getUsersRows storeOne 0 4).length : Int) ≤ (getUsersCountRows storeOne : Int) - 0 * 4) :=
  listUsers_page_bounds storeOne 0 4 (by decide) (by decide)

/-- C2 counterexample: with pageSize parsing to the number 0, the handler
serves a 200 with users (0 is falsy, so the default 4 kicks in), while the
claim as stated demands a 400 for any pageSize below 1. -/
theorem usersIndex_pageSizeZero_cex :
    usersIndexHandler (okGetUsersDb storeOne) QNum.absent (QNum.num 0)
      = Except.ok (Resp.mk 200 (RespBody.usersJson [formatAddress rowAlice, formatAddress rowBob])) ∧
    usersIndexClaimSpec (okGetUsersDb storeOne) QNum.absent (QNum.num 0)
      = Except.ok (Resp.mk 400 (RespBody.msgJson "Invalid page number or page size")) := by
  exact ⟨rfl, rfl⟩

/-- C2 amended: the handler agrees everywhere with the amended reading, in
which a parameter parsing to 0 also falls back to its default (so pageSize 0
is served with page size 4), and 400 arises exactly when the effective
pageNumber is negative or the effective pageSize is below 1. -/
theorem usersIndex_amended_eq (db : Int → Int → Except StorageFault (List UserOut))
    (pnq psq : QNum) :
    usersIndexHandler db pnq psq = usersIndexAmendedSpec db pnq psq := by
  cases pnq <;> cases psq <;>
    simp only [usersIndexHandler, usersIndexAmendedSpec, numOr] <;>
    first
      | rfl
      | (rename_i n
         by_cases hn : n = 0 <;> simp [hn])

/-- C7 counterexample: a present-but-empty userId query parameter is falsy,
so the handler answers 400, while the claim as stated reserves 400 for an
absent parameter and demands a 200 here. -/
theorem postsIndex_emptyUserId_cex :
    postsIndexHandler (okGetPostsDb storeOne) (some "")
      = Except.ok (Resp.mk 400 (RespBody.errJson "userId is required")) ∧
    postsIndexClaimSpec (okGetPostsDb storeOne) (some "")
      = Except.ok (Resp.mk 200 (RespBody.postsJson [])) := by
  exact ⟨rfl, rfl⟩

/-- C7 amended: the handler agrees everywhere with the amended reading, in
which both an absent and an empty userId get the 400 and any other value is
answered 200 with the posts whose `user_id` equals it (empty for an unknown
user — listing never errors on nonexistence). -/
theorem postsIndex_amended_eq (db : String → Except StorageFault (List Post))
    (userIdQ : Option String) :
    postsIndexHandler db userIdQ = postsIndexAmendedSpec db userIdQ := by
  cases userIdQ with
  | none => rfl
  | some u =>
    by_cases hu : u = "" <;>
      simp [postsIndexHandler, postsIndexAmendedSpec, strTruthy, hu]

theorem requiredStringField_guard (v : Option JsVal) :
    ((!(jsTruthy v) || !(jsIsString v)) = (requiredStringField v).isNone) ∧
    (∀ s, requiredStringField v = some s → jsStringVal v = s ∧ s ≠ "") := by
  rcases v with _ | (s | bl)
  · exact ⟨rfl, by intro s h; cases h⟩
  · by_cases hs : s = ""
    · subst hs
      exact ⟨rfl, by intro x h; simp [requiredStringField] at h⟩
    · constructor
      · simp [jsTruthy, jsIsString, requiredStringField, hs]
      · intro x h
        simp [requiredStringField, hs] at h
        subst h
        exact ⟨rfl, hs⟩
  · cases bl <;> exact ⟨rfl, by intro s h; cases h⟩

/-- C1 counterexample: with a present but empty title (body and userId
valid), the handler answers the required-message 400 (the empty string is
falsy), while the claim's pipeline — whose first three checks fire only for
absent or non-string values — prescribes the trimmed-empty message. -/
theorem postsCreate_emptyTitle_cex :
    postsCreateHandler (okUserExistsDb storeOne)
        (okCreatePostDb storeOne "p9" "2025-01-02T00:00:00.000Z")
        (some (JsVal.str "")) (some (JsVal.str "World")) (some (JsVal.str "u1"))
      = Resp.mk 400 (RespBody.errJson "Title is required and must be a string") ∧
    postsCreateClaimSpec (okUserExistsDb storeOne)
        (okCreatePostDb storeOne "p9" "2025-01-02T00:00:00.000Z")
        (some (JsVal.str "")) (some (JsVal.str "World")) (some (JsVal.str "u1"))
      = Resp.mk 400 (RespBody.errJson "Title cannot be empty or contain only whitespace") :=
  ⟨rfl, rfl⟩

/-- C1 amended: the handler agrees everywhere with the amended pipeline, in
which each required-string check also rejects the empty string (JS
falsiness), the trimmed-emptiness messages are reached only by non-empty
whitespace-only strings, and the `userExists`/`createPost` tail behaves as
the claim states (404 unknown user, 201 created post, 500 on failure). -/
theorem postsCreate_amended_eq (ue : String → Except StorageFault Bool)
    (cp : String → String → String → Except StorageFault Post)
    (t b u : Option JsVal) :
    postsCreateHandler ue cp t b u = postsCreateAmendedSpec ue cp t b u := by
  have gt := (requiredStringField_guard t).1
  have gb := (requiredStringField_guard b).1
  have gu := (requiredStringField_guard u).1
  rcases ht : requiredStringField t with _ | ts
  · rw [ht] at gt
    simp [postsCreateHandler, postsCreateAmendedSpec, gt, ht]
  · rw [ht] at gt
    obtain ⟨hts, htne⟩ := (requiredStringField_guard t).2 ts ht
    rcases hb : requiredStringField b with _ | bs
    · rw [hb] at gb
      simp [postsCreateHandler, postsCreateAmendedSpec, gt, gb, ht, hb]
    · rw [hb] at gb
      obtain ⟨hbs, hbne⟩ := (requiredStringField_guard b).2 bs hb
      rcases hu : requiredStringField u with _ | us
      · rw [hu] at gu
        simp [postsCreateHandler, postsCreateAmendedSpec, gt, gb, gu, ht, hb, hu]
      · rw [hu] at gu
        obtain ⟨hus, hune⟩ := (requiredStringField_guard u).2 us hu
        simp [postsCreateHandler, postsCreateAmendedSpec, gt, gb, gu, ht, hb, hu,
              hts, hbs, hus, string_length_eq_zero]

/-- C8: for an existing user `U` and already-trimmed non-empty title and
body, `POST /posts` answers 201 with the created post, that post is a
member of a subsequent `GET /posts` listing for `U`, and it carries the
generated id and creation timestamp. -/
theorem createPost_roundtrip (s : Store) (U T B newId ts : String)
    (hU : userExistsRow s U = true)
    (hTt : jsTrim T = T) (hTne : T ≠ "")
    (hBt : jsTrim B = B) (hBne : B ≠ "")
    (hUt : jsTrim U = U) (hUne : U ≠ "") :
    postsCreateHandler (okUserExistsDb s) (okCreatePostDb s newId ts)
        (some (JsVal.str T)) (some (JsVal.str B)) (some (JsVal.str U))
      = Resp.mk 201 (RespBody.postJson (createPostRows s U T B newId ts).2) ∧
    (createPostRows s U T B newId ts).2 ∈ getPostsRows (createPostRows s U T B newId ts).1 U ∧
    (createPostRows s U T B newId ts).2.id = newId ∧
    (createPostRows s U T B newId ts).2.created_at = ts := by
  refine ⟨?_, ?_, rfl, rfl⟩
  · simp [postsCreateHandler, jsTruthy, jsIsString, jsStringVal, hTt, hBt, hUt,
          hTne, hBne, hUne, string_length_eq_zero, okUserExistsDb, hU, okCreatePostDb]
  · simp [getPostsRows, createPostRows]

/-- C8 witness: creating a post for the seed user `u1` round-trips. -/
theorem createPost_roundtrip_witness :
    postsCreateHandler (okUserExistsDb storeOne)
        (okCreatePostDb storeOne "p9" "2025-03-03T00:00:00.000Z")
        (some (JsVal.str "Hi")) (some (JsVal.str "There")) (some (JsVal.str "u1"))
      = Resp.mk 201 (RespBody.postJson
          (createPostRows storeOne "u1" "Hi" "There" "p9" "2025-03-03T00:00:00.000Z").2) ∧
    (createPostRows storeOne "u1" "Hi" "There" "p9" "2025-03-03T00:00:00.000Z").2
      ∈ getPostsRows (createPostRows storeOne "u1" "Hi" "There" "p9" "2025-03-03T00:00:00.000Z").1 "u1" ∧
    (createPostRows storeOne "u1" "Hi" "There" "p9" "2025-03-03T00:00:00.000Z").2.id = "p9" ∧
    (createPostRows storeOne "u1" "Hi" "There" "p9" "2025-03-03T00:00:00.000Z").2.created_at
      = "2025-03-03T00:00:00.000Z" :=
  createPost_roundtrip storeOne "u1" "Hi" "There" "p9" "2025-03-03T00:00:00.000Z"
    (by decide) (by decide) (by decide) (by decide) (by decide) (by decide) (by decide)

/-- C9 counterexample: the `GET /users` handler has no try/catch, so a
storage fault escapes it as a rejection — the HTTP surface sends no 500
(and no response at all) for this endpoint, contrary to the claim. -/
theorem storageFault_getUsers_cex :
    usersIndexHandler (fun _ _ => Except.error (StorageFault.mk "SQLITE_ERROR: no such table"))
        QNum.absent QNum.absent
      = Except.error (StorageFault.mk "SQLITE_ERROR: no such table") ∧
    usersIndexHandler (fun _ _ => Except.error (StorageFault.mk "SQLITE_ERROR: no such table"))
        QNum.absent QNum.absent
      ≠ Except.ok (Resp.mk 500 (RespBody.errJson "Internal server error")) :=
  ⟨rfl, fun h => Except.noConfusion h⟩

/-- C9 amended: under a storage fault the try/catch-wrapped `POST /posts`
and `DELETE /posts/:id` handlers respond 500 with the generic message —
independent of the fault detail, which is therefore never echoed — while
the catch-less `GET /users`, `GET /users/count` and `GET /posts` handlers
let the rejection escape without sending any response. -/
theorem storageFault_mapping (e : StorageFault) (pnq psq : QNum) (userIdQ : Option String)
    (id T B U : String)
    (hpn : 0 ≤ numOr pnq 0) (hps : 1 ≤ numOr psq 4)
    (huq : strTruthy userIdQ = true)
    (hid : jsTrim id ≠ "")
    (hTt : jsTrim T = T) (hTne : T ≠ "")
    (hBt : jsTrim B = B) (hBne : B ≠ "")
    (hUt : jsTrim U = U) (hUne : U ≠ "") :
    usersIndexHandler (fun _ _ => Except.error e) pnq psq = Except.error e ∧
    usersCountHandler (Except.error e) = Except.error e ∧
    postsIndexHandler (fun _ => Except.error e) userIdQ = Except.error e ∧
    postsCreateHandler (fun _ => Except.error e) (fun _ _ _ => Except.error e)
        (some (JsVal.str T)) (some (JsVal.str B)) (some (JsVal.str U))
      = Resp.mk 500 (RespBody.errJson "Internal server error") ∧
    postsCreateHandler (fun _ => Except.ok true) (fun _ _ _ => Except.error e)
        (some (JsVal.str T)) (some (JsVal.str B)) (some (JsVal.str U))
      = Resp.mk 500 (RespBody.errJson "Internal server error") ∧
    postsDeleteHandler (fun _ => Except.error e) id
      = Resp.mk 500 (RespBody.errJson "Internal server error") := by
  have h1 : ¬(numOr pnq 0 < 0) := by omega
  have h2 : ¬(numOr psq 4 < 1) := by omega
  have hid0 : ¬(id = "") := fun he => hid (by rw [he]; rfl)
  refine ⟨?_, rfl, ?_, ?_, ?_, ?_⟩
  · simp [usersIndexHandler, h1, h2]
  · simp [postsIndexHandler, huq]
  · simp [postsCreateHandler, jsTruthy, jsIsString, jsStringVal, hTt, hBt, hUt,
          hTne, hBne, hUne, string_length_eq_zero]
  · simp [postsCreateHandler, jsTruthy, jsIsString, jsStringVal, hTt, hBt, hUt,
          hTne, hBne, hUne, string_length_eq_zero]
  · simp [postsDeleteHandler, hid0, hid, string_length_eq_zero]

/-- C9 amended witness: the six behaviours at concrete inputs. -/
theorem storageFault_mapping_witness :
    usersIndexHandler (fun _ _ => Except.error (StorageFault.mk "disk gone")) QNum.absent QNum.absent
      = Except.error (StorageFault.mk "disk gone") ∧
    usersCountHandler (Except.error (StorageFault.mk "disk gone"))
      = Except.error (StorageFault.mk "disk gone") ∧
    postsIndexHandler (fun _ => Except.error (StorageFault.mk "disk gone")) (some "u1")
      = Except.error (StorageFault.mk "disk gone") ∧
    postsCreateHandler (fun _ => Except.error (StorageFault.mk "disk gone"))
        (fun _ _ _ => Except.error (StorageFault.mk "disk gone"))
        (some (JsVal.str "Hi")) (some (JsVal.str "There")) (some (JsVal.str "u1"))
      = Resp.mk 500 (RespBody.errJson "Internal server error") ∧
    postsCreateHandler (fun _ => Except.ok true)
        (fun _ _ _ => Except.error (StorageFault.mk "disk gone"))
        (some (JsVal.str "Hi")) (some (JsVal.str "There")) (some (JsVal.str "u1"))
      = Resp.mk 500 (RespBody.errJson "Internal server error") ∧
    postsDeleteHandler (fun _ => Except.error (StorageFault.mk "disk gone")) "p1"
      = Resp.mk 500 (RespBody.errJson "Internal server error") :=
  storageFault_mapping (StorageFault.mk "disk gone") QNum.absent QNum.absent (some "u1")
    "p1" "Hi" "There" "u1" (by decide) (by decide) (by decide) (by decide)
    (by decide) (by decide) (by decide) (by decide) (by decide) (by decide)
